import Mathlib

/-!
Verification of the Risingwave engine adapter
(`src/sqlmesh/core/engine_adapter/risingwave.py`) against its
natural-language specification.

The development shallowly embeds the adapter's four concerns:
* the schema-differ dialect tables and the type-compatibility resolver
  they configure,
* the view-replacement orchestration (`create_view` / `drop_view`),
* the catalog introspection step (`_is_materialized`),
* the post-read transaction correction (`_fetch_native_df`).

Statements are pure Lean functions; statement emission is modelled as a
trace of `Stmt` values, and the atomicity claim uses an explicit state
model of the catalog with a transaction combinator.
-/

namespace Risingwave

/-- Type descriptor: canonical dialect-normalized type name plus the ordered
list of numeric parameters; an empty list means the type is unparameterized.
Mirrors the `exp.DataType` values fed to the `SchemaDiffer`. -/
structure DataType where
  name : String
  params : List Nat
deriving DecidableEq, Repr

/-- Embeds `parameterized_type_defaults` of the adapter's `SCHEMA_DIFFER`
(src/sqlmesh/core/engine_adapter/risingwave.py lines 44-50): the ordered
candidate parameter tuples tried for a type that lacks explicit parameters.
DECIMAL gets the engine maximum `(131072 + 16383, 16383)` first and the
unconstrained `(0,)` second. -/
def parameterized_type_defaults : String → Option (List (List Nat))
  | "DECIMAL" => some [[131072 + 16383, 16383], [0]]
  | "CHAR" => some [[1]]
  | "TIME" => some [[6]]
  | "TIMESTAMP" => some [[6]]
  | _ => none

/-- Embeds `types_with_unlimited_length` of the adapter's `SCHEMA_DIFFER`
(src/sqlmesh/core/engine_adapter/risingwave.py lines 51-69): for each
destination type name, the source type names that may be ALTERed to the
destination's unparameterized form. -/
def types_with_unlimited_length : String → List String
  | "TEXT" => ["VARCHAR", "CHAR", "BPCHAR"]
  | "VARCHAR" => ["VARCHAR", "CHAR", "BPCHAR", "TEXT"]
  | "BPCHAR" => ["BPCHAR"]
  | _ => []

/-- Modelled from the spec: default resolution of section 4.1 of the
`SchemaDiffer` resolver (sqlmesh/core/schema_diff.py, which is not under
src/) — a descriptor lacking explicit parameters stands in for the first
candidate tuple of the default-parameter table, or for no constraint when
the table has no entry for its name. -/
def effectiveParams (d : DataType) : List Nat :=
  if d.params.isEmpty then
    match parameterized_type_defaults d.name with
    | some (c :: _) => c
    | _ => []
  else d.params

/-- Modelled from the spec: capacity comparison of section 4.1 — a
parameter tuple fits a capacity tuple when the capacity is unconstrained
(empty) or is componentwise at least as large. -/
def withinCapacity (f t : List Nat) : Bool :=
  t.isEmpty || (f.length == t.length && (List.zip f t).all fun p => decide (p.1 ≤ p.2))

/-- Modelled from the spec: `canAlterInPlace` of section 4.1 (the
`SchemaDiffer` resolver of sqlmesh/core/schema_diff.py is not under src/),
over the in-source dialect tables. Identity case: same name with equal
parameters, or an unparameterized destination whose resolved capacity the
source's effective parameters do not exceed. Otherwise the widen graph
applies: the destination must be unparameterized ("all can ALTER to
unparameterized VARCHAR", src lines 52-65) and the source name a member of
the destination's source set. -/
def canAlterInPlace (f t : DataType) : Bool :=
  if f.name == t.name &&
      (f.params == t.params ||
        (t.params.isEmpty && withinCapacity (effectiveParams f) (effectiveParams t))) then
    true
  else
    t.params.isEmpty && (types_with_unlimited_length t.name).contains f.name

/-- C3: for every length `n`, `VARCHAR(n)` may alter in place to unparameterized
`TEXT` but not the reverse: `TEXT` to `VARCHAR(n)` is rejected. The relation is
not symmetric, as configured by `types_with_unlimited_length`. -/
theorem c3_varchar_text_not_symmetric (n : Nat) :
    canAlterInPlace ⟨"VARCHAR", [n]⟩ ⟨"TEXT", []⟩ = true ∧
    canAlterInPlace ⟨"TEXT", []⟩ ⟨"VARCHAR", [n]⟩ = false := by
  exact ⟨rfl, rfl⟩

/-- C4 counterexample: the claim asserts `canAlterInPlace(BPCHAR(n), VARCHAR())`
is false, but at `n = 1` the resolver returns true, because the in-source widen
table lists BPCHAR among the sources that may alter to unparameterized VARCHAR. -/
theorem c4_bpchar_to_varchar_counterexample :
    ¬ canAlterInPlace ⟨"BPCHAR", [1]⟩ ⟨"VARCHAR", []⟩ = false := by
  decide

/-- C4 amended: for every length `n`, `BPCHAR(n)` may alter in place to its own
unparameterized form `BPCHAR()`, and it may also alter to unparameterized
`VARCHAR()` (and `TEXT`), since the widen table lists BPCHAR in the VARCHAR and
TEXT source sets. -/
theorem c4_bpchar_widening (n : Nat) :
    canAlterInPlace ⟨"BPCHAR", [n]⟩ ⟨"BPCHAR", []⟩ = true ∧
    canAlterInPlace ⟨"BPCHAR", [n]⟩ ⟨"VARCHAR", []⟩ = true ∧
    canAlterInPlace ⟨"BPCHAR", [n]⟩ ⟨"TEXT", []⟩ = true := by
  exact ⟨rfl, rfl, rfl⟩

/-- C8: the default-parameter table resolves DECIMAL without explicit
precision/scale by the engine-maximum pair `(131072 + 16383, 16383)` as the
first candidate and the unconstrained `(0,)` as the second and last candidate,
in that declared order; default resolution therefore picks the engine maximum
as the conservative stand-in. -/
theorem c8_decimal_default_candidates :
    parameterized_type_defaults "DECIMAL" = some [[131072 + 16383, 16383], [0]] ∧
    effectiveParams ⟨"DECIMAL", []⟩ = [131072 + 16383, 16383] := by
  exact ⟨rfl, rfl⟩

/-- C9 counterexample: the claim asserts `canAlterInPlace` is true for every
pair with equal names regardless of parameters, but `DECIMAL(10,2)` to
`DECIMAL(5,1)` has equal names and the resolver returns false. -/
theorem c9_same_name_counterexample :
    (DataType.mk "DECIMAL" [10, 2]).name = (DataType.mk "DECIMAL" [5, 1]).name ∧
    canAlterInPlace ⟨"DECIMAL", [10, 2]⟩ ⟨"DECIMAL", [5, 1]⟩ = false := by
  decide

/-- C9 amended: for every pair of type descriptors with the same canonical name
and the same parameter list, `canAlterInPlace` returns true, even for names with
no explicit self-loop in the widen graph; with differing parameter lists and a
parameterized destination the identity case does not apply. -/
theorem c9_identity_equal_params (f t : DataType)
    (hname : f.name = t.name) (hparams : f.params = t.params) :
    canAlterInPlace f t = true := by
  simp [canAlterInPlace, hname, hparams]

/-- Witness for C9 amended: the identity case at `XINT(3)`, a name absent from
both dialect tables. -/
theorem c9_identity_equal_params_witness :
    canAlterInPlace ⟨"XINT", [3]⟩ ⟨"XINT", [3]⟩ = true :=
  c9_identity_equal_params ⟨"XINT", [3]⟩ ⟨"XINT", [3]⟩ rfl rfl

/-- RelationKind of the catalog introspection (spec section 3). The code
realises the classification as the three branches of `_is_materialized`
(src lines 159-171): no row, exact materialized-view match, any other row. -/
inductive RelationKind where
  | PLAIN_VIEW
  | MATERIALIZED_VIEW
  | UNKNOWN
deriving DecidableEq, Repr

/-- Embeds the branch structure of `_is_materialized`
(src/sqlmesh/core/engine_adapter/risingwave.py lines 141-174) as a
classification. `row` is the `table_type` of the first row of the metadata
query over `information_schema.tables`, or `none` when the dataframe is
empty. -/
def relationKind (row : Option String) : RelationKind :=
  match row with
  | none => RelationKind.UNKNOWN
  | some t =>
    if t = "MATERIALIZED VIEW" then RelationKind.MATERIALIZED_VIEW
    else RelationKind.PLAIN_VIEW

/-- Embeds `_is_materialized` (src lines 141-174) at the level of the fetched
first row: starts from false, and becomes true exactly when a row exists and
its `table_type` equals the descriptor `MATERIALIZED VIEW`. -/
def is_materialized_row (row : Option String) : Bool :=
  match row with
  | none => false
  | some t => if t = "MATERIALIZED VIEW" then true else false

/-- Embeds `_is_materialized` (src lines 141-174): the catalog abstracts the
metadata query filtered by the view's schema and name, returning the first
row's `table_type` when any row matches. -/
def is_materialized (catalog : String → Option String) (view_name : String) : Bool :=
  is_materialized_row (catalog view_name)

/-- Statements the adapter issues, as recorded by the trace model. The DDL
wire forms (spec section 6) are `DROP [MATERIALIZED] VIEW [IF EXISTS] name
[CASCADE]` and `CREATE [OR REPLACE] [MATERIALIZED] VIEW name AS query`. -/
inductive Stmt where
  | dropViewStmt (name : String) (materialized ifExists cascade : Bool)
  | createViewStmt (name : String) (replace materialized : Bool)
  | txBegin
  | txCommit
deriving DecidableEq, Repr

/-- Embeds `drop_view` (src lines 125-139): cascade defaults to true, and the
caller-supplied `materialized` flag is ignored — the flag passed to the base
drop is `_is_materialized(view_name)`, the introspected kind. The base drop's
statement emission is modelled from the spec (section 6 wire formats; the base
adapter is not under src/). -/
def drop_view (catalog : String → Option String) (view_name : String)
    (ignore_if_not_exists materialized cascade : Bool) : List Stmt :=
  [Stmt.dropViewStmt view_name (is_materialized catalog view_name)
    ignore_if_not_exists cascade]

/-- Embeds `create_view` (src lines 86-122) as the trace of issued statements
on the successful path: `materialized = true` forces `replace = true`; inside
one transaction, when `replace` holds, `drop_view` is called with
`ignore_if_not_exists = true` and cascade true, then the base create is issued
with the (possibly forced) `replace` and `materialized` flags. -/
def create_view (catalog : String → Option String) (view_name : String)
    (replace materialized : Bool) : List Stmt :=
  let replace2 := if materialized then true else replace
  [Stmt.txBegin] ++
    (if replace2 then drop_view catalog view_name true materialized true else []) ++
    [Stmt.createViewStmt view_name replace2 materialized] ++
    [Stmt.txCommit]

/-- C1: with `materialized = true` the caller-supplied `replace` value is
irrelevant — `replace` is forced to true before any statement is issued, so
`create_view` with `replace = false` produces exactly the statement trace of
`create_view` with `replace = true`, drop-then-create included. -/
theorem c1_materialized_forces_replace (catalog : String → Option String)
    (view_name : String) :
    create_view catalog view_name false true = create_view catalog view_name true true := by
  rfl

/-- C2: `drop_view` chooses the DROP form solely from the introspected relation
kind: the trace is independent of the caller-supplied `materialized` flag, and
when the catalog reports the relation as `MATERIALIZED VIEW` the materialized
DROP form is issued even though the caller passed `materialized = false`. -/
theorem c2_drop_form_from_introspection (catalog : String → Option String)
    (view_name : String) (ignore cascade : Bool)
    (h : catalog view_name = some "MATERIALIZED VIEW") :
    (∀ m1 m2 : Bool, drop_view catalog view_name ignore m1 cascade =
      drop_view catalog view_name ignore m2 cascade) ∧
    drop_view catalog view_name ignore false cascade =
      [Stmt.dropViewStmt view_name true ignore cascade] := by
  refine ⟨fun m1 m2 => rfl, ?_⟩
  simp [drop_view, is_materialized, is_materialized_row, h]

/-- Witness for C2: a catalog that reports every relation as a materialized
view makes `drop_view` with `materialized = false` issue the materialized DROP. -/
theorem c2_drop_form_from_introspection_witness :
    drop_view (fun _ => some "MATERIALIZED VIEW") "v" true false true =
      [Stmt.dropViewStmt "v" true true true] :=
  (c2_drop_form_from_introspection (fun _ => some "MATERIALIZED VIEW") "v" true true rfl).2

/-- C5: the classification returns UNKNOWN exactly when the metadata query has
no rows, returns MATERIALIZED_VIEW exactly on the exact descriptor match, maps
any other row to PLAIN_VIEW, and the boolean the code computes is true exactly
on the MATERIALIZED_VIEW outcome — UNKNOWN in particular counts as not
materialized. -/
theorem c5_relation_kind_classification (row : Option String) :
    (relationKind row = RelationKind.UNKNOWN ↔ row = none) ∧
    (relationKind row = RelationKind.MATERIALIZED_VIEW ↔ row = some "MATERIALIZED VIEW") ∧
    (∀ s : String, s ≠ "MATERIALIZED VIEW" →
      relationKind (some s) = RelationKind.PLAIN_VIEW) ∧
    is_materialized_row row = decide (relationKind row = RelationKind.MATERIALIZED_VIEW) ∧
    (row = none → is_materialized_row row = false) := by
  refine ⟨?_, ?_, ?_, ?_, ?_⟩
  · cases row with
    | none => simp [relationKind]
    | some s =>
      by_cases hs : s = "MATERIALIZED VIEW" <;> simp [relationKind, hs]
  · cases row with
    | none => simp [relationKind]
    | some s =>
      by_cases hs : s = "MATERIALIZED VIEW" <;> simp [relationKind, hs]
  · intro s hs
    simp [relationKind, hs]
  · cases row with
    | none => simp [relationKind, is_materialized_row]
    | some s =>
      by_cases hs : s = "MATERIALIZED VIEW" <;>
        simp [relationKind, is_materialized_row, hs]
  · intro h
    simp [h, is_materialized_row]

/-- Witness for C5: a base-table row classifies as a plain view, the empty
result classifies as UNKNOWN and is not materialized. -/
theorem c5_relation_kind_classification_witness :
    relationKind (some "BASE TABLE") = RelationKind.PLAIN_VIEW ∧
    is_materialized_row none = false :=
  ⟨(c5_relation_kind_classification (some "BASE TABLE")).2.2.1 "BASE TABLE" (by decide),
    (c5_relation_kind_classification none).2.2.2.2 rfl⟩

/-- Session state of the one connection the adapter uses: `txn_open` is
whether the connection currently has a (possibly implicit) transaction open;
`in_explicit` is the connection pool's flag for an explicitly begun
transaction scope, which is what `is_transaction_active` reports. -/
structure Session where
  txn_open : Bool
  in_explicit : Bool
deriving DecidableEq, Repr

/-- Embeds `self._connection_pool.is_transaction_active` (src line 81): the
pool reports whether an explicit transaction scope is active. -/
def is_transaction_active (s : Session) : Bool := s.in_explicit

/-- Embeds `self._connection_pool.commit()` (src line 82): closes whatever
transaction the connection has open. -/
def commit (s : Session) : Session := { s with txn_open := false }

/-- Modelled from the spec: the pandas-native base fetch
(`PandasNativeFetchDFSupportMixin._fetch_native_df`, not under src/) —
`read_sql_query` under psycopg leaves a hanging transaction open on the
connection after returning the dataframe (src docstring lines 75-79 and
spec section 4.4). `data` abstracts the query results. -/
def base_fetch_native_df {α : Type} (data : String → α) (query : String)
    (s : Session) : α × Session :=
  (data query, { s with txn_open := true })

/-- Embeds `_fetch_native_df` (src lines 72-83): run the base fetch, then if
the pool does not report an active explicit transaction, force a commit;
return the dataframe of the base fetch. -/
def fetch_native_df {α : Type} (data : String → α) (query : String)
    (s : Session) : α × Session :=
  let r := base_fetch_native_df data query s
  let s2 := if is_transaction_active r.2 then r.2 else commit r.2
  (r.1, s2)

/-- C6: after a fetch issued outside an explicit transaction scope, the
adapter's check finds no active transaction and forces a commit, so when the
fetch returns the connection has no open transaction and the session reports
no active transaction. -/
theorem c6_fetch_commits_outside_scope {α : Type} (data : String → α)
    (query : String) (s : Session) (h : s.in_explicit = false) :
    (fetch_native_df data query s).2.txn_open = false ∧
    is_transaction_active (fetch_native_df data query s).2 = false := by
  simp [fetch_native_df, base_fetch_native_df, is_transaction_active, commit, h]

/-- Witness for C6: a concrete fetch on a session with an open implicit
transaction and no explicit scope ends with both flags false. -/
theorem c6_fetch_commits_outside_scope_witness :
    (fetch_native_df (fun _ => (0 : Nat)) "SELECT 1" ⟨true, false⟩).2.txn_open = false ∧
    is_transaction_active (fetch_native_df (fun _ => (0 : Nat)) "SELECT 1" ⟨true, false⟩).2 = false :=
  c6_fetch_commits_outside_scope (fun _ => (0 : Nat)) "SELECT 1" ⟨true, false⟩ rfl

/-- C10: the corrected fetch returns exactly the dataframe of the base fetch,
for every query and every session state — the conditional commit touches only
the session, never the returned data. -/
theorem c10_fetch_preserves_dataframe {α : Type} (data : String → α)
    (query : String) (s : Session) :
    (fetch_native_df data query s).1 = (base_fetch_native_df data query s).1 := by
  rfl

/-- Catalog state for the atomicity model: each view name maps to `some m`
when a view exists (`m` records whether it is materialized), `none` when
absent. -/
def DbState : Type := String → Option Bool

/-- Failures of the underlying DDL execution layer (spec section 7). -/
inductive DdlErr where
  | alreadyExists
  | notFound
  | createFailed
deriving DecidableEq, Repr

/-- Modelled from the spec: the base adapter's drop-view DDL over the catalog
state (sections 4.2 and 6; the base `EngineAdapter` is not under src/):
removes an existing relation; on an absent relation it is a no-op when
`ignore_if_not_exists` holds and fails with NotFound otherwise. -/
def base_drop_view_db (name : String) (ignore_if_not_exists : Bool)
    (db : DbState) : Except DdlErr DbState :=
  match db name with
  | some _ => Except.ok fun n => if n = name then none else db n
  | none => if ignore_if_not_exists then Except.ok db else Except.error DdlErr.notFound

/-- Modelled from the spec: the base adapter's create-view DDL over the
catalog state (sections 4.2 and 6; not under src/). `fails` stands for an
external failure of the underlying create statement (invalid query, engine
error); without `replace`, an existing relation raises AlreadyExists. -/
def base_create_view_db (name : String) (replace materialized fails : Bool)
    (db : DbState) : Except DdlErr DbState :=
  if fails then Except.error DdlErr.createFailed
  else if !replace && (db name).isSome then Except.error DdlErr.alreadyExists
  else Except.ok fun n => if n = name then some materialized else db n

/-- Modelled from the spec: the transaction scope of section 4.4 (the base
adapter's `transaction()` helper is not under src/) — the body's statements
commit atomically on success, and on failure the scope rolls back, leaving
the catalog state exactly as before the scope opened. -/
def transactionRun (body : DbState → Except DdlErr DbState) (db : DbState) :
    Except DdlErr Unit × DbState :=
  match body db with
  | Except.ok db2 => (Except.ok (), db2)
  | Except.error e => (Except.error e, db)

/-- Embeds the transaction body of `create_view` (src lines 108-122): when
`replace` holds, drop the existing view (ignoring absence, using the
introspected kind — which cannot change the outcome in this state model),
then issue the base create. -/
def create_view_body (name : String) (replace materialized fails : Bool)
    (db0 : DbState) : Except DdlErr DbState :=
  match (if replace then base_drop_view_db name true db0 else Except.ok db0) with
  | Except.error e => Except.error e
  | Except.ok db1 => base_create_view_db name replace materialized fails db1

/-- Embeds `create_view` (src lines 86-122) over the catalog state: forces
`replace = true` for materialized views, then runs drop-and-create inside one
transaction scope. -/
def create_view_db (name : String) (replace materialized fails : Bool)
    (db : DbState) : Except DdlErr Unit × DbState :=
  let replace2 := if materialized then true else replace
  transactionRun (create_view_body name replace2 materialized fails) db

/-- C7: with `replace = true`, drop and create run in one atomically
committing scope: whenever `create_view` reports an error, the observable
catalog state equals the initial one, so a state where the old view was
dropped but no new view created is never observable. -/
theorem c7_replace_is_atomic (name : String) (materialized fails : Bool)
    (db : DbState) (e : DdlErr)
    (h : (create_view_db name true materialized fails db).1 = Except.error e) :
    (create_view_db name true materialized fails db).2 = db := by
  simp only [create_view_db, transactionRun, ite_self] at h ⊢
  cases hb : create_view_body name true materialized fails db with
  | ok db2 => rw [hb] at h; simp at h
  | error e2 => rfl

/-- Witness for C7: a failing create on an initially empty catalog reports the
failure and leaves the catalog unchanged. -/
theorem c7_replace_is_atomic_witness :
    (create_view_db "v" true false true (fun _ => none)).1 =
      Except.error DdlErr.createFailed ∧
    (create_view_db "v" true false true (fun _ => none)).2 = (fun _ => none) :=
  ⟨rfl, c7_replace_is_atomic "v" false true (fun _ => none) DdlErr.createFailed rfl⟩

end Risingwave
